import Mathlib

/-!
Verification development for the python-openai-realtime-relay repository.

The Python code keeps its conversation state in mutable dicts and lists of
shared dict references.  The shallow embedding below models that state as
follows:

* a Python `dict` used as a record (an item, a content part, a formatted
  projection, a speech segment) becomes a Lean structure whose fields are
  `Option`s when the corresponding key may be absent; reading an absent key
  (a Python `KeyError`) becomes an `Except.error`;
* `self.item_lookup` (id -> shared item object) is the heap of item records,
  and `self.items` (a list of references to those same objects) is modelled
  as the ordered list of ids pointing into that heap; the same scheme is used
  for responses;
* dict assignment `d[k] = v` is `assign` (update in place when the key is
  present, append otherwise, matching Python 3.7+ insertion order), and
  `del d[k]` is `eraseKey`;
* `bytes` values are lists of byte values (`List Nat`); millisecond and
  sample arithmetic uses `Nat` with floor division, which agrees with the
  Python `int(... / ...)` computations at the non-negative inputs that occur
  here;
* base64 decoding (`RealtimeUtils.base64_to_bytes`) is a stateless codec the
  spec treats as an external collaborator; the processors take it as an
  explicit function parameter `decode`;
* a raised Python exception aborts `process_event`; the model returns the
  error message and discards the partially mutated state.
-/

/-- A JSON value, as carried in envelopes and tool outputs. -/
inductive JVal where
  | str : String → JVal
  | num : Int → JVal
  | bool : Bool → JVal
  | null : JVal
  | arr : List JVal → JVal
  | obj : List (String × JVal) → JVal

/-- Python dict assignment `d[k] = v`: replace in place when the key is
present (keeping its position), append otherwise. -/
def assign {β : Type} (l : List (String × β)) (k : String) (v : β) :
    List (String × β) :=
  if (l.lookup k).isSome then l.map (fun p => if p.1 = k then (k, v) else p)
  else l ++ [(k, v)]

/-- Python `del d[k]` (on a key-unique dict). -/
def eraseKey {β : Type} (l : List (String × β)) (k : String) :
    List (String × β) :=
  l.filter (fun p => p.1 ≠ k)

/-- Key list of a dict. -/
def dictKeys {β : Type} (l : List (String × β)) : List String :=
  l.map Prod.fst

/-- Bytes are modelled as lists of byte values. -/
abbrev Bytes := List Nat

/-- `RealtimeConversation.default_frequency` (24,000 Hz). -/
def default_frequency : Nat := 24000

/-- The `formatted.tool` descriptor of a function-call item. -/
structure Tool where
  ttype : Option String := none
  name : Option String := none
  call_id : Option String := none
  arguments : String := ""
deriving DecidableEq

/-- The `formatted` projection of an item. -/
structure Formatted where
  audio : Bytes := []
  text : String := ""
  transcript : String := ""
  tool : Option Tool := none
  output : Option String := none
deriving DecidableEq

/-- A content part of an item (`type`, `text`, `transcript`, `audio` keys,
each possibly absent). -/
structure ContentPart where
  ctype : Option String := none
  text : Option String := none
  transcript : Option String := none
  audio : Option String := none
deriving DecidableEq

/-- A conversation item, as an open dict: every key except `id` may be
absent. -/
structure Item where
  id : String
  itype : Option String := none
  role : Option String := none
  status : Option String := none
  content : Option (List ContentPart) := none
  formatted : Option Formatted := none
  arguments : Option String := none
  name : Option String := none
  call_id : Option String := none
  output : Option String := none
deriving DecidableEq

/-- The incremental delta returned by a delta processor
(`ItemContentDeltaType`). -/
structure Delta where
  text : Option String := none
  audio : Option Bytes := none
  arguments : Option String := none
  transcript : Option String := none
deriving DecidableEq

/-- A queued speech segment (`queued_speech_items` entry): only
`audio_start_ms` is always present. -/
structure SpeechSeg where
  audio_start_ms : Nat
  audio_end_ms : Option Nat := none
  audio : Option Bytes := none
deriving DecidableEq

/-- A tracked response: its id and the list of output item ids. -/
structure RResp where
  id : String
  output : List String := []
deriving DecidableEq

/-- The state of `RealtimeConversation`.  `items` and `responses` are lists
of references to the objects held in the corresponding lookup dicts, so they
are modelled as ordered id lists indexing into those dicts. -/
structure ConvState where
  item_lookup : List (String × Item) := []
  items : List String := []
  response_lookup : List (String × RResp) := []
  responses : List String := []
  queued_speech_items : List (String × SpeechSeg) := []
  queued_transcript_items : List (String × String) := []
  queued_input_audio : Option Bytes := none
deriving DecidableEq

/-- `RealtimeConversation.clear()` result. -/
def clearConvState : ConvState := {}

/-- `RealtimeConversation.queue_input_audio`. -/
def queueInputAudio (s : ConvState) (b : Bytes) : ConvState :=
  { s with queued_input_audio := some b }

/-- The placeholder item synthesized by `_ensure_item_exists`. -/
def placeholderItem (item_id : String) : Item :=
  { id := item_id, formatted := some {}, content := some [],
    status := some "in_progress" }

/-- `_ensure_item_exists`: return the tracked item, creating and indexing a
placeholder when the id is unknown. -/
def ensureItem (s : ConvState) (item_id : String) : ConvState × Item :=
  match s.item_lookup.lookup item_id with
  | some it => (s, it)
  | none =>
    let it := placeholderItem item_id
    ({ s with item_lookup := assign s.item_lookup item_id it,
              items := s.items ++ [item_id] }, it)

/-- Write back a mutated item under its id (mutation of the shared dict,
visible through both `item_lookup` and `items`). -/
def setItem (s : ConvState) (k : String) (it : Item) : ConvState :=
  { s with item_lookup := assign s.item_lookup k it }

/-- Insert a brand-new item into the lookup and append it to the ordered
list (`conversation_item_created`, new-id branch). -/
def addItem (s : ConvState) (it : Item) : ConvState :=
  { s with item_lookup := assign s.item_lookup it.id it,
           items := s.items ++ [it.id] }

/-- Common shape of the processors that `_ensure_item_exists` an item and
then mutate it in place. -/
def withEnsured (s : ConvState) (item_id : String)
    (f : Item → Except String (Item × Option Delta)) :
    Except String (ConvState × Option Item × Option Delta) :=
  match ensureItem s item_id with
  | (s1, it) =>
    match f it with
    | Except.error e => Except.error e
    | Except.ok (it2, d) => Except.ok (setItem s1 item_id it2, some it2, d)

/-- An all-empty content part, as appended by the `while len <= index`
padding loops. -/
def emptyPart : ContentPart := {}

/-- Pad a content list so that index `idx` exists
(`while len(content) <= idx: content.append({})`). -/
def padContent (l : List ContentPart) (idx : Nat) : List ContentPart :=
  l ++ List.replicate (idx + 1 - l.length) emptyPart

/-- Pad to index `idx` and update the part stored there. -/
def updateAt (l : List ContentPart) (idx : Nat)
    (f : ContentPart → ContentPart) : List ContentPart :=
  (padContent l idx).set idx (f ((padContent l idx).getD idx emptyPart))

/-- The list comprehension
`[c for c in content if c["type"] in ["text", "input_text"]]`;
a part with no `type` key raises `KeyError`. -/
def filterTextParts : List ContentPart → Except String (List ContentPart)
  | [] => Except.ok []
  | c :: cs =>
    match c.ctype with
    | none => Except.error "KeyError: type"
    | some t =>
      match filterTextParts cs with
      | Except.error e => Except.error e
      | Except.ok rest =>
        if t = "text" ∨ t = "input_text" then Except.ok (c :: rest)
        else Except.ok rest

/-- The loop `for content in text_content: text += content["text"]`. -/
def concatTexts : List ContentPart → Except String String
  | [] => Except.ok ""
  | c :: cs =>
    match c.text with
    | none => Except.error "KeyError: text"
    | some tx =>
      match concatTexts cs with
      | Except.error e => Except.error e
      | Except.ok rest => Except.ok (tx ++ rest)

/-- `conversation_item_created`.  The event item is copied; if its id is new
it is inserted into the lookup and appended to the ordered list, otherwise
the tracked entry is left untouched and the copy is merely returned.  The
formatted projection of the copy is initialized, queued speech / transcript /
input audio are attached and consumed, and the status defaults are applied
per item type.  Reading `queued_speech_items[id]["audio"]` when the segment
has no `audio` key (speech_stopped not yet processed) is a `KeyError`. -/
def conversationItemCreated (s : ConvState) (item0 : Item) :
    Except String (ConvState × Option Item × Option Delta) :=
  let f0 : Formatted := {}
  let speechStep : Except String (Formatted × List (String × SpeechSeg)) :=
    match s.queued_speech_items.lookup item0.id with
    | some seg =>
      match seg.audio with
      | none => Except.error "KeyError: audio"
      | some a =>
        Except.ok ({ f0 with audio := a }, eraseKey s.queued_speech_items item0.id)
    | none => Except.ok (f0, s.queued_speech_items)
  match speechStep with
  | Except.error e => Except.error e
  | Except.ok (f1, qs) =>
    let textStep : Except String Formatted :=
      match item0.content with
      | none => Except.ok f1
      | some parts =>
        match filterTextParts parts with
        | Except.error e => Except.error e
        | Except.ok tps =>
          match concatTexts tps with
          | Except.error e => Except.error e
          | Except.ok tx => Except.ok { f1 with text := f1.text ++ tx }
    match textStep with
    | Except.error e => Except.error e
    | Except.ok f2 =>
      let trStep : Formatted × List (String × String) :=
        match s.queued_transcript_items.lookup item0.id with
        | some tr =>
          ({ f2 with transcript := tr }, eraseKey s.queued_transcript_items item0.id)
        | none => (f2, s.queued_transcript_items)
      match trStep with
      | (f3, qt) =>
        let typeStep :
            Except String (Formatted × Option String × Option Bytes) :=
          match item0.itype with
          | none => Except.error "KeyError: type"
          | some ty =>
            if ty = "message" then
              match item0.role with
              | none => Except.error "KeyError: role"
              | some rl =>
                if rl = "user" then
                  match s.queued_input_audio with
                  | some b =>
                    if b ≠ [] then
                      Except.ok ({ f3 with audio := b }, some "completed", none)
                    else
                      Except.ok (f3, some "completed", s.queued_input_audio)
                  | none => Except.ok (f3, some "completed", s.queued_input_audio)
                else Except.ok (f3, some "in_progress", s.queued_input_audio)
            else if ty = "function_call" then
              match item0.name with
              | none => Except.error "KeyError: name"
              | some nm =>
                match item0.call_id with
                | none => Except.error "KeyError: call_id"
                | some cid =>
                  Except.ok
                    ({ f3 with
                        tool := some
                          { ttype := some "function", name := some nm,
                            call_id := some cid, arguments := "" } },
                     some "in_progress", s.queued_input_audio)
            else if ty = "function_call_output" then
              match item0.output with
              | none => Except.error "KeyError: output"
              | some out =>
                Except.ok ({ f3 with output := some out }, some "completed",
                  s.queued_input_audio)
            else Except.ok (f3, item0.status, s.queued_input_audio)
        match typeStep with
        | Except.error e => Except.error e
        | Except.ok (f4, st, qia) =>
          let finalItem : Item := { item0 with status := st, formatted := some f4 }
          let s1 : ConvState :=
            { s with queued_speech_items := qs, queued_transcript_items := qt,
                     queued_input_audio := qia }
          if (s.item_lookup.lookup item0.id).isSome then
            Except.ok (s1, some finalItem, none)
          else
            Except.ok (addItem s1 finalItem, some finalItem, none)

/-- `conversation_item_truncated`: clip the formatted audio at the sample
offset of the millisecond mark and clear the transcript. -/
def conversationItemTruncated (s : ConvState) (item_id : String)
    (audio_end_ms : Nat) :
    Except String (ConvState × Option Item × Option Delta) :=
  withEnsured s item_id (fun it =>
    match it.formatted with
    | none => Except.error "KeyError: formatted"
    | some fm =>
      let end_index := audio_end_ms * default_frequency / 1000
      Except.ok ({ it with
        formatted := some
          { fm with transcript := "", audio := fm.audio.take end_index } }, none))

/-- `conversation_item_deleted`: unknown ids are a logged no-op; known items
are removed from both the lookup and the ordered list. -/
def conversationItemDeleted (s : ConvState) (item_id : String) :
    Except String (ConvState × Option Item × Option Delta) :=
  match s.item_lookup.lookup item_id with
  | none => Except.ok (s, none, none)
  | some it =>
    if (s.item_lookup.lookup it.id).isSome then
      Except.ok
        ({ s with
            item_lookup := eraseKey s.item_lookup it.id,
            items := s.items.filter (fun i => i ≠ it.id) }, some it, none)
    else Except.error "KeyError: id"

/-- `conversation_item_input_audio_transcription_completed`: pad the content
list, store the raw transcript at the index, and store the single-space
sentinel for an empty transcript in the formatted projection. -/
def transcriptionCompleted (s : ConvState) (item_id : String)
    (content_index : Nat) (transcript : String) :
    Except String (ConvState × Option Item × Option Delta) :=
  withEnsured s item_id (fun it =>
    match it.content with
    | none => Except.error "KeyError: content"
    | some l =>
      match it.formatted with
      | none => Except.error "KeyError: formatted"
      | some fm =>
        let ft := if transcript = "" then " " else transcript
        Except.ok ({ it with
          content := some (updateAt l content_index
            (fun p => { p with transcript := some transcript })),
          formatted := some { fm with transcript := ft } },
          some { transcript := some transcript }))

/-- `input_audio_buffer_speech_started`: record the start marker. -/
def speechStarted (s : ConvState) (item_id : String) (audio_start_ms : Nat) :
    Except String (ConvState × Option Item × Option Delta) :=
  Except.ok
    ({ s with
        queued_speech_items :=
          assign s.queued_speech_items item_id
            { audio_start_ms := audio_start_ms } },
     none, none)

/-- `input_audio_buffer_speech_stopped`: set the end marker (creating the
segment with start = end if unknown) and, for a non-empty buffer, slice out
the samples between the markers. -/
def speechStopped (s : ConvState) (item_id : String) (audio_end_ms : Nat)
    (input_audio_buffer : Bytes) :
    Except String (ConvState × Option Item × Option Delta) :=
  let seg0 : SpeechSeg :=
    match s.queued_speech_items.lookup item_id with
    | some sg => sg
    | none => { audio_start_ms := audio_end_ms }
  let seg1 := { seg0 with audio_end_ms := some audio_end_ms }
  let seg2 :=
    if input_audio_buffer ≠ [] then
      let start_index := seg1.audio_start_ms * default_frequency / 1000
      let end_index := audio_end_ms * default_frequency / 1000
      { seg1 with
          audio := some ((input_audio_buffer.drop start_index).take
            (end_index - start_index)) }
    else seg1
  Except.ok
    ({ s with
        queued_speech_items := assign s.queued_speech_items item_id seg2 },
     none, none)

/-- `response_created`: register the response if its id is new. -/
def responseCreatedProc (s : ConvState) (resp : RResp) :
    Except String (ConvState × Option Item × Option Delta) :=
  if (s.response_lookup.lookup resp.id).isSome then Except.ok (s, none, none)
  else
    Except.ok
      ({ s with
          response_lookup := assign s.response_lookup resp.id resp,
          responses := s.responses ++ [resp.id] }, none, none)

/-- `response_output_item_added`: append the item id to the response output
list; unknown responses are a logged no-op. -/
def responseOutputItemAdded (s : ConvState) (response_id : String)
    (item : Item) :
    Except String (ConvState × Option Item × Option Delta) :=
  match s.response_lookup.lookup response_id with
  | none => Except.ok (s, none, none)
  | some r =>
    Except.ok
      ({ s with
          response_lookup := assign s.response_lookup response_id
            { r with output := r.output ++ [item.id] } }, none, none)

/-- Python `found_item.update(event_item)`: every key present on the event
item overrides the tracked value. -/
def mergeItem (found ei : Item) : Item :=
  { id := ei.id,
    itype := ei.itype <|> found.itype,
    role := ei.role <|> found.role,
    status := ei.status <|> found.status,
    content := ei.content <|> found.content,
    formatted := ei.formatted <|> found.formatted,
    arguments := ei.arguments <|> found.arguments,
    name := ei.name <|> found.name,
    call_id := ei.call_id <|> found.call_id,
    output := ei.output <|> found.output }

/-- `response_output_item_done`: merge the full payload into the tracked
item and set the status from the payload (`KeyError` if it has none). -/
def responseOutputItemDone (s : ConvState) (item0 : Item) :
    Except String (ConvState × Option Item × Option Delta) :=
  withEnsured s item0.id (fun it =>
    match item0.status with
    | none => Except.error "KeyError: status"
    | some st => Except.ok ({ mergeItem it item0 with status := some st }, none))

/-- `response_content_part_added`: append the new part unconditionally. -/
def responseContentPartAdded (s : ConvState) (item_id : String)
    (part : ContentPart) :
    Except String (ConvState × Option Item × Option Delta) :=
  withEnsured s item_id (fun it =>
    match it.content with
    | none => Except.error "KeyError: content"
    | some l => Except.ok ({ it with content := some (l ++ [part]) }, none))

/-- `response_audio_transcript_delta`. -/
def responseAudioTranscriptDelta (s : ConvState) (item_id : String)
    (content_index : Nat) (delta : String) :
    Except String (ConvState × Option Item × Option Delta) :=
  withEnsured s item_id (fun it =>
    match it.content with
    | none => Except.error "KeyError: content"
    | some l =>
      match it.formatted with
      | none => Except.error "KeyError: formatted"
      | some fm =>
        Except.ok ({ it with
          content := some (updateAt l content_index
            (fun p => { p with transcript := some (p.transcript.getD "" ++ delta) })),
          formatted := some { fm with transcript := fm.transcript ++ delta } },
          some { transcript := some delta }))

/-- `response_audio_delta`: the content slot accumulates the base64 text,
the formatted projection accumulates the decoded bytes, and the returned
delta carries only the decoded increment. -/
def responseAudioDelta (decode : String → Bytes) (s : ConvState)
    (item_id : String) (content_index : Nat) (delta : String) :
    Except String (ConvState × Option Item × Option Delta) :=
  withEnsured s item_id (fun it =>
    match it.content with
    | none => Except.error "KeyError: content"
    | some l =>
      match it.formatted with
      | none => Except.error "KeyError: formatted"
      | some fm =>
        Except.ok ({ it with
          content := some (updateAt l content_index
            (fun p => { p with audio := some (p.audio.getD "" ++ delta) })),
          formatted := some { fm with audio := fm.audio ++ decode delta } },
          some { audio := some (decode delta) }))

/-- `response_text_delta`. -/
def responseTextDelta (s : ConvState) (item_id : String)
    (content_index : Nat) (delta : String) :
    Except String (ConvState × Option Item × Option Delta) :=
  withEnsured s item_id (fun it =>
    match it.content with
    | none => Except.error "KeyError: content"
    | some l =>
      match it.formatted with
      | none => Except.error "KeyError: formatted"
      | some fm =>
        Except.ok ({ it with
          content := some (updateAt l content_index
            (fun p => { p with text := some (p.text.getD "" ++ delta) })),
          formatted := some { fm with text := fm.text ++ delta } },
          some { text := some delta }))

/-- `response_function_call_arguments_delta`: accumulate on the item and on
its tool descriptor, creating them empty when absent. -/
def responseFunctionCallArgumentsDelta (s : ConvState) (item_id : String)
    (delta : String) :
    Except String (ConvState × Option Item × Option Delta) :=
  withEnsured s item_id (fun it =>
    let args := it.arguments.getD ""
    let fm := it.formatted.getD {}
    let tool := fm.tool.getD { arguments := "" }
    Except.ok
      ({ it with
          arguments := some (args ++ delta),
          formatted := some
            { fm with
                tool := some
                  { tool with arguments := tool.arguments ++ delta } } },
       some { arguments := some delta }))

/-- The recognized event payloads (the keys each processor reads from the
event dict become constructor fields). -/
inductive REvent where
  | itemCreated (item : Item)
  | itemTruncated (item_id : String) (audio_end_ms : Nat)
  | itemDeleted (item_id : String)
  | transcriptionCompleted (item_id : String) (content_index : Nat)
      (transcript : String)
  | speechStarted (item_id : String) (audio_start_ms : Nat)
  | speechStopped (item_id : String) (audio_end_ms : Nat)
  | responseCreated (response : RResp)
  | outputItemAdded (response_id : String) (item : Item)
  | outputItemDone (item : Item)
  | contentPartAdded (item_id : String) (part : ContentPart)
  | audioTranscriptDelta (item_id : String) (content_index : Nat)
      (delta : String)
  | audioDelta (item_id : String) (content_index : Nat) (delta : String)
  | textDelta (item_id : String) (content_index : Nat) (delta : String)
  | argumentsDelta (item_id : String) (delta : String)
deriving DecidableEq

/-- Dispatch to the event processor (the body of
`RealtimeConversation.process_event` after the envelope checks).  The raw
input-audio buffer is the extra positional argument, consumed only by
`speech_stopped`. -/
def processREvent (decode : String → Bytes) (ev : REvent) (buf : Bytes)
    (s : ConvState) :
    Except String (ConvState × Option Item × Option Delta) :=
  match ev with
  | REvent.itemCreated item => conversationItemCreated s item
  | REvent.itemTruncated item_id ms => conversationItemTruncated s item_id ms
  | REvent.itemDeleted item_id => conversationItemDeleted s item_id
  | REvent.transcriptionCompleted item_id ci tr =>
      transcriptionCompleted s item_id ci tr
  | REvent.speechStarted item_id ms => speechStarted s item_id ms
  | REvent.speechStopped item_id ms => speechStopped s item_id ms buf
  | REvent.responseCreated resp => responseCreatedProc s resp
  | REvent.outputItemAdded rid item => responseOutputItemAdded s rid item
  | REvent.outputItemDone item => responseOutputItemDone s item
  | REvent.contentPartAdded item_id part =>
      responseContentPartAdded s item_id part
  | REvent.audioTranscriptDelta item_id ci d =>
      responseAudioTranscriptDelta s item_id ci d
  | REvent.audioDelta item_id ci d => responseAudioDelta decode s item_id ci d
  | REvent.textDelta item_id ci d => responseTextDelta s item_id ci d
  | REvent.argumentsDelta item_id d =>
      responseFunctionCallArgumentsDelta s item_id d

/-- An event envelope as seen by `process_event`: `event_id` may be missing,
and `payload = none` stands for a type with no registered processor (or a
missing type). -/
structure EventEnvelope where
  event_id : Option String := none
  payload : Option REvent := none

/-- `RealtimeConversation.process_event`: reject envelopes without an
`event_id` or without a recognized type, then dispatch. -/
def processEvent (decode : String → Bytes) (env : EventEnvelope) (buf : Bytes)
    (s : ConvState) :
    Except String (ConvState × Option Item × Option Delta) :=
  match env.event_id with
  | none => Except.error "Missing event_id on event"
  | some _ =>
    match env.payload with
    | none => Except.error "Missing conversation event processor"
    | some ev => processREvent decode ev buf s

/-- Process a list of envelopes in order, threading the state. -/
def runEvents (decode : String → Bytes) (buf : Bytes) :
    ConvState → List EventEnvelope → Except String ConvState
  | s, [] => Except.ok s
  | s, env :: rest =>
    match processEvent decode env buf s with
    | Except.error e => Except.error e
    | Except.ok (s1, _, _) => runEvents decode buf s1 rest

/-!
## Event handler (`RealtimeEventHandler`)

Handlers are opaque callback identifiers; dispatch pops and "fires" the
one-shot list for a topic.  `wait_for_next` runs on a single-threaded event
loop, so its two possible outcomes are the two sequential interleavings of
(register one-shot; dispatch-or-timeout; deregister in the finally block).
-/

/-- The two handler registries of `RealtimeEventHandler`. -/
structure EHState where
  event_handlers : List (String × List Nat) := []
  next_event_handlers : List (String × List Nat) := []
deriving DecidableEq

/-- `on_next`: append a one-shot callback under the topic. -/
def onNext (s : EHState) (topic : String) (cb : Nat) : EHState :=
  { s with
      next_event_handlers :=
        assign s.next_event_handlers topic
          (((s.next_event_handlers.lookup topic).getD []) ++ [cb]) }

/-- `dispatch`: invoke a snapshot of the durable handlers, then pop and
invoke all one-shot handlers for the topic; returns the fired one-shot
callbacks. -/
def dispatchEH (s : EHState) (topic : String) : EHState × List Nat :=
  ({ s with next_event_handlers := eraseKey s.next_event_handlers topic },
   (s.next_event_handlers.lookup topic).getD [])

/-- `off_next` with an explicit callback: `list.remove` on the registered
list, raising when the callback is not found (also when the topic has no
entry at all, because `.get(topic, [])` then yields a fresh empty list). -/
def offNext (s : EHState) (topic : String) (cb : Nat) : Except String EHState :=
  let hs := (s.next_event_handlers.lookup topic).getD []
  if cb ∈ hs then
    Except.ok
      { s with
          next_event_handlers :=
            assign s.next_event_handlers topic (hs.erase cb) }
  else
    Except.error
      "Could not turn off specified next event listener: not found as a listener"

/-- `wait_for_next` when a dispatch on the topic happens before the timeout:
register the one-shot future callback, let the dispatch run, then the
`finally` block calls `off_next`.  The boolean reports whether the future
was resolved by the dispatch. -/
def waitForNextEventFirst (s : EHState) (topic : String) (cb : Nat) :
    Except String (EHState × Bool) :=
  let s1 := onNext s topic cb
  match dispatchEH s1 topic with
  | (s2, fired) =>
    match offNext s2 topic cb with
    | Except.error e => Except.error e
    | Except.ok s3 => Except.ok (s3, cb ∈ fired)

/-- `wait_for_next` when the timeout elapses with no dispatch on the topic:
register the callback, catch `asyncio.TimeoutError` (yielding the explicit
no-event result), then the `finally` block calls `off_next`.  The boolean is
`false`: no event was returned. -/
def waitForNextTimeout (s : EHState) (topic : String) (cb : Nat) :
    Except String (EHState × Bool) :=
  let s1 := onNext s topic cb
  match offNext s1 topic cb with
  | Except.error e => Except.error e
  | Except.ok s2 => Except.ok (s2, false)

/-!
## `RealtimeAPI.send`

The outgoing envelope is the Python dict
`{"event_id": generate_id("evt_"), "type": event_name, **data}` — keys of
`data` override the two stamped fields.  The generated id is an external
random collaborator and is passed in as `fresh`.  The local dispatches and
the transmission are recorded as an ordered action list.
-/

/-- Python `{**a, **b}`: keys of `a` in order (values overridden by `b`
where present), then the keys of `b` not in `a`, in order. -/
def mergeDict (a b : List (String × JVal)) : List (String × JVal) :=
  (a.map (fun p =>
    match b.lookup p.1 with
    | some v => (p.1, v)
    | none => p)) ++ b.filter (fun q => (a.lookup q.1).isNone)

/-- The envelope built by `RealtimeAPI.send`. -/
def apiEnvelope (fresh etype : String) (data : List (String × JVal)) :
    List (String × JVal) :=
  mergeDict [("event_id", JVal.str fresh), ("type", JVal.str etype)] data

/-- What `RealtimeAPI.send` does, in order. -/
inductive SendAction where
  | dispatchLocal (topic : String) (env : List (String × JVal))
  | transmit (env : List (String × JVal))

/-- `RealtimeAPI.send`: refuse when not connected; otherwise stamp the
envelope, dispatch `client.<type>` and `client.*` locally, then initiate the
asynchronous transmission. -/
def apiSend (connected : Bool) (fresh etype : String)
    (data : List (String × JVal)) : Except String (List SendAction) :=
  if connected then
    Except.ok
      [SendAction.dispatchLocal ("client." ++ etype) (apiEnvelope fresh etype data),
       SendAction.dispatchLocal "client.*" (apiEnvelope fresh etype data),
       SendAction.transmit (apiEnvelope fresh etype data)]
  else Except.error "RealtimeAPI is not connected"

/-- Extract the string under a key of an envelope, when it is a string. -/
def jstrOf (o : Option JVal) : Option String :=
  match o with
  | some (JVal.str s) => some s
  | _ => none

/-!
## Client (`RealtimeClient`)

Only the pieces the claims exercise are embedded: the tool registry and
session resync, response creation/cancellation, and the tool-call pipeline.
Outbound traffic is recorded as a trace of typed envelopes; the per-envelope
`event_id` stamping is the `apiSend` model above.  Tool handlers
(`JVal → Except String JVal`, where an error is a raised exception) are kept
outside the state so that states stay decidably comparable; the registry of
definitions and the registry of handlers share their name keys.
-/

/-- A `turn_detection` config dict (only its `type` key matters here). -/
structure TurnDetection where
  tdtype : String := "server_vad"
deriving DecidableEq

/-- A tool entry as sent in a session update:
`{"type": "function", **definition}`. -/
structure SentTool where
  ttype : String := "function"
  name : String := ""
  description : String := ""
deriving DecidableEq

/-- A registered tool definition (its optional `type` key overrides the
`"function"` tag when present). -/
structure ToolDef where
  dtype : Option String := none
  name : String := ""
  description : String := ""
deriving DecidableEq

/-- `{"type": "function", **tool["definition"]}`. -/
def sentToolOf (d : ToolDef) : SentTool :=
  { ttype := d.dtype.getD "function", name := d.name,
    description := d.description }

/-- The session configuration (`default_session_config` defaults; the float
`0.8` is modelled as the rational `4/5`).  In every reachable state the
`turn_detection` key is present, so the field holds its value:
`none` models the Python value `None`. -/
structure SessionConfig where
  modalities : List String := ["text", "audio"]
  instructions : String := ""
  voice : String := "alloy"
  input_audio_format : String := "pcm16"
  output_audio_format : String := "pcm16"
  input_audio_transcription : Option String := none
  turn_detection : Option TurnDetection := none
  tools : List SentTool := []
  tool_choice : String := "auto"
  temperature : Rat := 4 / 5
  max_response_output_tokens : Nat := 4096
deriving DecidableEq

/-- A typed outbound envelope recorded in the client trace. -/
inductive Env where
  | responseCancel
  | responseCreate
  | inputAudioCommit
  | itemTruncate (item_id : String) (content_index : Nat) (audio_end_ms : Nat)
  | itemCreateFCOutput (call_id : String) (output : JVal)
  | sessionUpdate (session : SessionConfig)

/-- The client-side state the claims exercise. -/
structure ClientState where
  conv : ConvState := {}
  sessionConfig : SessionConfig := {}
  tools : List (String × ToolDef) := []
  inputAudioBuffer : Bytes := []
  connected : Bool := false
  trace : List Env := []

/-- `RealtimeAPI.send` as seen from the client: refuse when not connected,
otherwise append the envelope to the outbound trace. -/
def rtSend (cs : ClientState) (e : Env) : Except String ClientState :=
  if cs.connected then Except.ok { cs with trace := cs.trace ++ [e] }
  else Except.error "RealtimeAPI is not connected"

/-- `get_turn_detection_type`:
`session_config.get("turn_detection", {}).get("type")`.  The key is present
in every reachable config, so when its value is `None` the expression calls
`.get` on `None` and raises `AttributeError`. -/
def getTurnDetectionType (cfg : SessionConfig) : Except String (Option String) :=
  match cfg.turn_detection with
  | none => Except.error "AttributeError: NoneType object has no attribute get"
  | some td => Except.ok (some td.tdtype)

/-- `update_session` at its no-keyword call sites (the `add_tool` resync):
recompute the outgoing tool list from the registry and, when connected,
transmit the session-update envelope. -/
def updateSession (cs : ClientState) : ClientState :=
  let use_tools := cs.tools.map (fun p => sentToolOf p.2)
  let session := { cs.sessionConfig with tools := use_tools }
  if cs.connected then { cs with trace := cs.trace ++ [Env.sessionUpdate session] }
  else cs

/-- `add_tool`: reject a missing/empty name or a duplicate registration,
then register and resync.  (The `callable(handler)` check cannot fail in the
model, where handlers are functions by type.) -/
def addTool (cs : ClientState) (d : ToolDef) : Except String ClientState :=
  if d.name = "" then Except.error "Missing tool name in definition"
  else if (cs.tools.lookup d.name).isSome then
    Except.error "Tool already added"
  else Except.ok (updateSession { cs with tools := cs.tools ++ [(d.name, d)] })

/-- `remove_tool`: reject an unregistered name, else delete the entry.  No
resync and no outbound envelope. -/
def removeTool (cs : ClientState) (nm : String) : Except String ClientState :=
  if (cs.tools.lookup nm).isSome then
    Except.ok { cs with tools := eraseKey cs.tools nm }
  else Except.error "Tool does not exist, can not be removed"

/-- `create_response`: when turn detection reads as unset and local audio is
pending, first commit the buffer and hand it to the conversation; then send
`response.create`.  `get_turn_detection_type` is evaluated first and may
raise. -/
def createResponse (cs : ClientState) : Except String ClientState :=
  match getTurnDetectionType cs.sessionConfig with
  | Except.error e => Except.error e
  | Except.ok td =>
    let step1 : Except String ClientState :=
      if td = none ∧ cs.inputAudioBuffer ≠ [] then
        match rtSend cs Env.inputAudioCommit with
        | Except.error e => Except.error e
        | Except.ok c1 =>
          Except.ok { c1 with
            conv := queueInputAudio c1.conv c1.inputAudioBuffer,
            inputAudioBuffer := [] }
      else Except.ok cs
    match step1 with
    | Except.error e => Except.error e
    | Except.ok c2 => rtSend c2 Env.responseCreate

/-- The tool descriptor handed to `_call_tool`
(`item["formatted"]["tool"]`). -/
structure ToolCallDesc where
  name : String := ""
  call_id : String := ""
  arguments : String := ""
deriving DecidableEq

/-- The body of the `try` block of `_call_tool` up to the result:
parse the arguments, look up the handler, run it. -/
def toolAttempt (parse : String → Except String JVal)
    (handlers : List (String × (JVal → Except String JVal)))
    (tool : ToolCallDesc) : Except String JVal :=
  match parse tool.arguments with
  | Except.error e => Except.error e
  | Except.ok args =>
    match handlers.lookup tool.name with
    | none => Except.error ("Tool has not been added: " ++ tool.name)
    | some h => h args

/-- `_call_tool`: any failure inside the `try` block (parse, lookup, handler,
or the success-path send itself) is converted into a `function_call_output`
item whose output is the object `{"error": <message>}`; afterwards
`create_response()` runs unconditionally and its exceptions propagate.
Stringification of the output is the external JSON codec; the trace records
the JSON value handed to it. -/
def callTool (parse : String → Except String JVal)
    (handlers : List (String × (JVal → Except String JVal)))
    (cs : ClientState) (tool : ToolCallDesc) : Except String ClientState :=
  let tryBlock : Except String ClientState :=
    match toolAttempt parse handlers tool with
    | Except.error e => Except.error e
    | Except.ok result => rtSend cs (Env.itemCreateFCOutput tool.call_id result)
  let sent : Except String ClientState :=
    match tryBlock with
    | Except.ok c1 => Except.ok c1
    | Except.error e =>
      rtSend cs (Env.itemCreateFCOutput tool.call_id
        (JVal.obj [("error", JVal.str e)]))
  match sent with
  | Except.error e => Except.error e
  | Except.ok c1 => createResponse c1

/-- The generator
`next((i for i, c in enumerate(content) if c["type"] == "audio"), -1)`:
scan for the first audio part, raising on a part with no `type` key. -/
def findAudioIndexAux : List ContentPart → Nat → Except String (Option Nat)
  | [], _ => Except.ok none
  | c :: cs, i =>
    match c.ctype with
    | none => Except.error "KeyError: type"
    | some t =>
      if t = "audio" then Except.ok (some i) else findAudioIndexAux cs (i + 1)

/-- `cancel_response`: with no id, a bare cancel.  With an id, validate the
item (exists, message type, assistant role), send `response.cancel`, look
for an audio content part — raising *after* the cancel was already sent when
there is none — and finally send the truncate envelope.  The result pairs
the state (including everything sent before a raise) with the outcome. -/
def cancelResponse (cs : ClientState) (oid : Option String)
    (sample_count : Nat) : ClientState × Except String (Option Item) :=
  match oid with
  | none =>
    match rtSend cs Env.responseCancel with
    | Except.error e => (cs, Except.error e)
    | Except.ok c1 => (c1, Except.ok none)
  | some id =>
    match cs.conv.item_lookup.lookup id with
    | none => (cs, Except.error "Could not find item")
    | some it =>
      match it.itype with
      | none => (cs, Except.error "KeyError: type")
      | some ty =>
        if ty ≠ "message" then
          (cs, Except.error "Can only cancelResponse messages with type message")
        else
          match it.role with
          | none => (cs, Except.error "KeyError: role")
          | some rl =>
            if rl ≠ "assistant" then
              (cs, Except.error "Can only cancelResponse messages with role assistant")
            else
              match rtSend cs Env.responseCancel with
              | Except.error e => (cs, Except.error e)
              | Except.ok c1 =>
                match it.content with
                | none => (c1, Except.error "KeyError: content")
                | some l =>
                  match findAudioIndexAux l 0 with
                  | Except.error e => (c1, Except.error e)
                  | Except.ok none =>
                    (c1, Except.error "Could not find audio on item to cancel")
                  | Except.ok (some ai) =>
                    match rtSend c1 (Env.itemTruncate id ai
                        (sample_count * 1000 / default_frequency)) with
                    | Except.error e => (c1, Except.error e)
                    | Except.ok c2 => (c2, Except.ok (some it))

/-- Project an `Except` of client states to its outbound trace. -/
def traceOf (r : Except String ClientState) : Except String (List Env) :=
  Except.map ClientState.trace r

/-!
## The store consistency invariant (claim C10)

`items` holds references to exactly the objects indexed by `item_lookup`:
every listed id is a key, every key is listed, no id is listed or keyed
twice, and each record carries the id it is keyed under (so the lookup maps
each id to the very record the ordered list refers to).
-/

/-- Consistency of the item store. -/
def consistent (s : ConvState) : Prop :=
  (∀ id ∈ s.items, (s.item_lookup.lookup id).isSome) ∧
  (∀ p ∈ s.item_lookup, p.1 ∈ s.items) ∧
  s.items.Nodup ∧
  (dictKeys s.item_lookup).Nodup ∧
  (∀ p ∈ s.item_lookup, Item.id p.2 = p.1)

instance (s : ConvState) : Decidable (consistent s) := by
  unfold consistent
  infer_instance

/-- A trivially computable base64 stand-in used for concrete evaluations
(the real codec is external; every theorem about audio deltas is proved for
an arbitrary `decode`). -/
def decode0 : String → Bytes := fun _ => []

/-!
## Delta folds and concrete states used by the claims
-/

/-- Process a sequence of text-delta events for one item, collecting the
deltas returned to the consumer. -/
def runTextDeltas (id : String) :
    ConvState → List (Nat × String) → Except String (ConvState × List Delta)
  | s, [] => Except.ok (s, [])
  | s, (ci, d) :: rest =>
    match responseTextDelta s id ci d with
    | Except.error e => Except.error e
    | Except.ok (s1, _, some dl) =>
      match runTextDeltas id s1 rest with
      | Except.error e => Except.error e
      | Except.ok (s2, ds) => Except.ok (s2, dl :: ds)
    | Except.ok (_, _, none) => Except.error "no delta returned"

/-- Process a sequence of function-call-arguments delta events for one item,
collecting the deltas returned to the consumer. -/
def runArgDeltas (id : String) :
    ConvState → List String → Except String (ConvState × List Delta)
  | s, [] => Except.ok (s, [])
  | s, d :: rest =>
    match responseFunctionCallArgumentsDelta s id d with
    | Except.error e => Except.error e
    | Except.ok (s1, _, some dl) =>
      match runArgDeltas id s1 rest with
      | Except.error e => Except.error e
      | Except.ok (s2, ds) => Except.ok (s2, dl :: ds)
    | Except.ok (_, _, none) => Except.error "no delta returned"

/-- The `formatted.text` of the item tracked under an id, when present. -/
def formattedTextOf (s : ConvState) (id : String) : Option String :=
  match s.item_lookup.lookup id with
  | some it => (it.formatted.map Formatted.text)
  | none => none

/-- The `formatted.tool.arguments` of the item tracked under an id. -/
def formattedToolArgsOf (s : ConvState) (id : String) : Option String :=
  match s.item_lookup.lookup id with
  | some it =>
    match it.formatted with
    | some fm =>
      match fm.tool with
      | some t => some t.arguments
      | none => none
    | none => none
  | none => none

/-- The item of the C1 scenario: `conversation.item.created` announcing
`"a2"` as a user message. -/
def a2UserItem : Item :=
  { id := "a2", itype := some "message", role := some "user",
    content := some [] }

/-- The C1 event sequence: speech_started(a2, 100 ms), item created,
speech_stopped(a2, 200 ms). -/
def c1Envelopes : List EventEnvelope :=
  [{ event_id := some "evt_1", payload := some (REvent.speechStarted "a2" 100) },
   { event_id := some "evt_2", payload := some (REvent.itemCreated a2UserItem) },
   { event_id := some "evt_3", payload := some (REvent.speechStopped "a2" 200) }]

/-- A 4800-byte raw input-audio buffer (byte i holds i mod 256). -/
def rawBuffer : Bytes := (List.range 4800).map (fun i => i % 256)

/-- Item `"a3"`: an assistant message whose content has no audio part. -/
def a3Item : Item :=
  { id := "a3", itype := some "message", role := some "assistant",
    content := some [{ ctype := some "text", text := some "hello" }] }

/-- A connected client tracking item `"a3"`. -/
def cs3Example : ClientState :=
  { conv := { item_lookup := [("a3", a3Item)], items := ["a3"] },
    connected := true }

/-- A connected client with the default session configuration
(`turn_detection` present with value `None`). -/
def csDefaultExample : ClientState := { connected := true }

/-- A connected client whose session has server-VAD turn detection. -/
def csVadExample : ClientState :=
  { connected := true, sessionConfig := { turn_detection := some {} } }

/-- A completed function-call tool descriptor naming an unregistered tool. -/
def unregisteredTool : ToolCallDesc :=
  { name := "lookup", call_id := "call_1", arguments := "not json" }

/-- A JSON parse stub that rejects its input (argument parse failure). -/
def parseReject : String → Except String JVal :=
  fun _ => Except.error "invalid JSON"

/-- A JSON parse stub that accepts anything as `null`. -/
def parseOkStub : String → Except String JVal :=
  fun _ => Except.ok JVal.null

/-- A registered tool definition named `"lookup"`. -/
def lookupToolDef : ToolDef := { name := "lookup", description := "a tool" }

/-- A connected client with the tool `"lookup"` registered. -/
def cs9Example : ClientState :=
  { connected := true, tools := [("lookup", lookupToolDef)] }

/-- An item with one typed text content part, for delta witnesses. -/
def witnessItem : Item :=
  { id := "w1", content := some [{ ctype := some "text", text := some "t" }],
    formatted := some {} }

/-- A conversation tracking `witnessItem`. -/
def witnessConv : ConvState :=
  { item_lookup := [("w1", witnessItem)], items := ["w1"] }


/-- Ordered concatenation of string fragments. -/
def strConcat : List String → String
  | [] => ""
  | a :: l => a ++ strConcat l

/-- What an indexed delta processor guarantees (claim C5): it succeeds
returning exactly the incoming fragment as delta, and the targeted item's
content list is padded to the index, its old entries away from the target
unchanged and the back-filled entries empty. -/
def deltaPadPost (run : Except String (ConvState × Option Item × Option Delta))
    (id : String) (ci : Nat) (dl : Delta) (l : List ContentPart) : Prop :=
  ∃ s2 it2 l2, run = Except.ok (s2, some it2, some dl) ∧
    s2.item_lookup.lookup id = some it2 ∧ it2.content = some l2 ∧
    l2.length = max l.length (ci + 1) ∧
    (∀ j, j < l.length → j ≠ ci → l2[j]? = l[j]?) ∧
    (∀ j, l.length ≤ j → j < ci → l2[j]? = some emptyPart)

/-- The accumulated `formatted.tool.arguments` view of an item, with the
defaulting the arguments-delta processor applies. -/
def toolArgsView (it : Item) : String :=
  ((it.formatted.getD {}).tool.getD { arguments := "" }).arguments

/-- The accumulated `arguments` view of an item. -/
def argsView (it : Item) : String := it.arguments.getD ""

/-!
## Shared lemmas about dict lookup, assignment and padding
-/

theorem lookup_cons {β : Type} (a : String) (b : β) (t : List (String × β))
    (k : String) :
    (((a, b) :: t).lookup k) = if k = a then some b else t.lookup k := by
  by_cases h : k = a
  · subst h; simp [List.lookup]
  · simp [List.lookup, beq_eq_false_iff_ne.mpr h, h]

theorem lookup_append_left {β : Type} (k : String) (l r : List (String × β))
    (hs : (l.lookup k).isSome) : ((l ++ r).lookup k) = l.lookup k := by
  induction l with
  | nil => simp at hs
  | cons p t ih =>
    cases p with
    | mk a b =>
      rw [List.cons_append, lookup_cons, lookup_cons]
      by_cases h : k = a
      · rw [if_pos h, if_pos h]
      · rw [if_neg h, if_neg h]
        rw [lookup_cons, if_neg h] at hs
        exact ih hs

theorem lookup_append_right {β : Type} (k : String) (l r : List (String × β))
    (hn : l.lookup k = none) : ((l ++ r).lookup k) = r.lookup k := by
  induction l with
  | nil => simp
  | cons p t ih =>
    cases p with
    | mk a b =>
      rw [lookup_cons] at hn
      rw [List.cons_append, lookup_cons]
      by_cases h : k = a
      · rw [if_pos h] at hn; exact absurd hn (by simp)
      · rw [if_neg h] at hn
        rw [if_neg h]
        exact ih hn

theorem lookup_map_update {β : Type} (k : String) (v : β)
    (l : List (String × β)) :
    ((l.map (fun p => if p.1 = k then (k, v) else p)).lookup k) =
      if (l.lookup k).isSome then some v else none := by
  induction l with
  | nil => simp
  | cons p t ih =>
    obtain ⟨a, b⟩ := p
    by_cases hp : a = k
    · subst hp; simp [lookup_cons]
    · have hne : ¬ k = a := fun hk => hp hk.symm
      simp [lookup_cons, hp, hne, ih]
      rw [lookup_cons, if_neg hne]

theorem lookup_map_update_ne {β : Type} (k k' : String) (v : β)
    (l : List (String × β)) (h : k' ≠ k) :
    ((l.map (fun p => if p.1 = k then (k, v) else p)).lookup k') =
      l.lookup k' := by
  induction l with
  | nil => simp
  | cons p t ih =>
    obtain ⟨a, b⟩ := p
    by_cases hp : a = k
    · subst hp; simp [lookup_cons, h, ih]
    · by_cases hk : k' = a
      · subst hk; simp [lookup_cons, hp, ih]
      · simp [lookup_cons, hp, hk, ih]

theorem lookup_isNone_of_not_isSome {β : Type} (l : List (String × β))
    (k : String) (h : ¬ (l.lookup k).isSome) : l.lookup k = none := by
  cases hl : l.lookup k with
  | none => rfl
  | some w => rw [hl] at h; simp at h

theorem lookup_assign_self {β : Type} (l : List (String × β)) (k : String)
    (v : β) : ((assign l k v).lookup k) = some v := by
  unfold assign
  by_cases hs : (l.lookup k).isSome
  · rw [if_pos hs, lookup_map_update, if_pos hs]
  · rw [if_neg hs,
      lookup_append_right _ _ _ (lookup_isNone_of_not_isSome _ _ hs),
      lookup_cons, if_pos rfl]

theorem lookup_assign_ne {β : Type} (l : List (String × β)) (k k' : String)
    (v : β) (h : k' ≠ k) : ((assign l k v).lookup k') = l.lookup k' := by
  unfold assign
  by_cases hs : (l.lookup k).isSome
  · rw [if_pos hs, lookup_map_update_ne _ _ _ _ h]
  · rw [if_neg hs]
    by_cases hs' : (l.lookup k').isSome
    · rw [lookup_append_left _ _ _ hs']
    · rw [lookup_append_right _ _ _ (lookup_isNone_of_not_isSome _ _ hs'),
        lookup_isNone_of_not_isSome _ _ hs', lookup_cons, if_neg h]
      simp

theorem str_empty_append (s : String) : "" ++ s = s := by
  cases s with
  | mk l => rfl

/-- `padContent` realizes the padding loop: final length is
`max (old length) (idx+1)`. -/
theorem padContent_length (l : List ContentPart) (idx : Nat) :
    (padContent l idx).length = max l.length (idx + 1) := by
  unfold padContent
  rw [List.length_append, List.length_replicate]
  omega

theorem updateAt_length (l : List ContentPart) (idx : Nat)
    (f : ContentPart → ContentPart) :
    (updateAt l idx f).length = max l.length (idx + 1) := by
  unfold updateAt
  rw [List.length_set, padContent_length]

/-- Entries below the old length and different from the target are
untouched. -/
theorem updateAt_get_old (l : List ContentPart) (idx : Nat)
    (f : ContentPart → ContentPart) (j : Nat) (hj : j < l.length)
    (hne : j ≠ idx) : (updateAt l idx f)[j]? = l[j]? := by
  unfold updateAt padContent
  rw [List.getElem?_set_ne (fun he => hne he.symm), List.getElem?_append]
  simp [hj]

/-- Newly created entries below the target hold the empty placeholder. -/
theorem updateAt_get_pad (l : List ContentPart) (idx : Nat)
    (f : ContentPart → ContentPart) (j : Nat) (hj : l.length ≤ j)
    (hlt : j < idx) : (updateAt l idx f)[j]? = some emptyPart := by
  unfold updateAt padContent
  rw [List.getElem?_set_ne (show idx ≠ j by omega), List.getElem?_append]
  rw [if_neg (by omega)]
  rw [List.getElem?_replicate, if_pos (by omega)]

/-!
## Claims
-/

/-- Claim C1 (code behavior at the claimed scenario): for the event order
speech_started("a2", 100 ms), conversation.item.created("a2" as a user
message), speech_stopped("a2", 200 ms) over a concrete 4800-byte raw
buffer, processing does *not* complete: `conversation_item_created` reads
the `audio` key of the queued speech segment, which only `speech_stopped`
writes, so the created event fails with a KeyError and the formatted audio
is never attached.  This contradicts the claimed outcome (completion
without error with formatted audio = buffer[2400:4800)). -/
theorem c1_speech_race_keyerror :
    runEvents decode0 rawBuffer clearConvState c1Envelopes =
      Except.error "KeyError: audio" := rfl

/-- Claim C2 (code behavior at the claimed scenario): starting from a fresh
handler registry, a `wait_for_next("x")` whose topic is dispatched before
the timeout fails with the `off_next` ValueError (the dispatch already
popped the one-shot list, so the `finally` deregistration raises) instead
of returning the event; the timeout outcome returns the explicit no-event
result with the callback deregistered. -/
theorem c2_wait_for_next_dispatch_raises :
    waitForNextEventFirst {} "x" 0 =
      Except.error
        "Could not turn off specified next event listener: not found as a listener" ∧
    waitForNextTimeout {} "x" 0 =
      Except.ok ({ next_event_handlers := [("x", [])] }, false) :=
  ⟨rfl, rfl⟩

/-- Claim C3, counterexample: cancelling item "a3" (an assistant message
with no audio content part) on a connected client fails with the
descriptive error but has already transmitted a `response.cancel`
envelope — refuting "no outbound envelope is sent on the failure path". -/
theorem c3_counterexample_cancel_sent :
    (cancelResponse cs3Example (some "a3") 48000).1.trace =
      [Env.responseCancel] ∧
    (cancelResponse cs3Example (some "a3") 48000).2 =
      Except.error "Could not find audio on item to cancel" :=
  ⟨rfl, rfl⟩

/-- Claim C3 as amended: for every connected client and every tracked item
of message type and assistant role whose content has no audio part,
`cancel_response(id, sample_count)` fails with the descriptive error and
transmits no `conversation.item.truncate` envelope, but it does transmit a
`response.cancel` envelope before failing. -/
theorem c3_cancel_no_audio (cs : ClientState) (id : String) (n : Nat)
    (it : Item) (l : List ContentPart)
    (hconn : cs.connected = true)
    (hlook : cs.conv.item_lookup.lookup id = some it)
    (hty : it.itype = some "message") (hrl : it.role = some "assistant")
    (hc : it.content = some l)
    (hna : findAudioIndexAux l 0 = Except.ok none) :
    cancelResponse cs (some id) n =
      ({ cs with trace := cs.trace ++ [Env.responseCancel] },
       Except.error "Could not find audio on item to cancel") := by
  simp [cancelResponse, rtSend, hlook, hty, hrl, hconn, hc, hna]

/-- Witness for `c3_cancel_no_audio` at the concrete client `cs3Example`. -/
theorem c3_cancel_no_audio_witness :
    cs3Example.connected = true ∧
    cs3Example.conv.item_lookup.lookup "a3" = some a3Item ∧
    a3Item.itype = some "message" ∧ a3Item.role = some "assistant" ∧
    cancelResponse cs3Example (some "a3") 48000 =
      ({ cs3Example with trace := cs3Example.trace ++ [Env.responseCancel] },
       Except.error "Could not find audio on item to cancel") :=
  ⟨rfl, rfl, rfl, rfl,
   c3_cancel_no_audio cs3Example "a3" 48000 a3Item
     [{ ctype := some "text", text := some "hello" }]
     rfl rfl rfl rfl rfl rfl⟩

/-- Claim C4, counterexample: when the caller-supplied data already carries
`event_id` or `type` keys (as the relay's message handler does, forwarding
the browser envelope verbatim), the Python `{**stamps, **data}` spread lets
the data values override the stamped ones: with fresh id "evt_1" and type
"session.update", the outgoing envelope carries event_id "boo" and type
"zap" instead. -/
theorem c4_counterexample_data_overrides :
    jstrOf ((apiEnvelope "evt_1" "session.update"
        [("event_id", JVal.str "boo"), ("type", JVal.str "zap")]).lookup
        "event_id") = some "boo" ∧
    jstrOf ((apiEnvelope "evt_1" "session.update"
        [("event_id", JVal.str "boo"), ("type", JVal.str "zap")]).lookup
        "type") = some "zap" ∧
    ("boo" : String) ≠ "evt_1" ∧ ("zap" : String) ≠ "session.update" :=
  ⟨rfl, rfl, by decide, by decide⟩

/-- Claim C4 as amended: for every connected send, when the data carries
neither an `event_id` nor a `type` key, the outgoing envelope's `event_id`
is the freshly generated id and its `type` is the given type argument, and
the local `client.<type>` and `client.*` dispatches are ordered before the
network transmission; keys present in the data override the stamped
fields. -/
theorem c4_send_stamps_and_order (fresh etype : String)
    (data : List (String × JVal))
    (h1 : data.lookup "event_id" = none) (h2 : data.lookup "type" = none) :
    apiSend true fresh etype data =
      Except.ok
        [SendAction.dispatchLocal ("client." ++ etype)
          (apiEnvelope fresh etype data),
         SendAction.dispatchLocal "client.*" (apiEnvelope fresh etype data),
         SendAction.transmit (apiEnvelope fresh etype data)] ∧
    (apiEnvelope fresh etype data).lookup "event_id" =
      some (JVal.str fresh) ∧
    (apiEnvelope fresh etype data).lookup "type" = some (JVal.str etype) := by
  refine ⟨rfl, ?_, ?_⟩
  · simp [apiEnvelope, mergeDict, h1, h2, lookup_cons]
  · simp [apiEnvelope, mergeDict, h1, h2, lookup_cons]

/-- Witness for `c4_send_stamps_and_order` at concrete inputs. -/
theorem c4_send_stamps_and_order_witness :
    ([("foo", JVal.null)] : List (String × JVal)).lookup "event_id" = none ∧
    ([("foo", JVal.null)] : List (String × JVal)).lookup "type" = none ∧
    (apiSend true "evt_1" "ping" [("foo", JVal.null)] =
      Except.ok
        [SendAction.dispatchLocal "client.ping"
          (apiEnvelope "evt_1" "ping" [("foo", JVal.null)]),
         SendAction.dispatchLocal "client.*"
          (apiEnvelope "evt_1" "ping" [("foo", JVal.null)]),
         SendAction.transmit (apiEnvelope "evt_1" "ping" [("foo", JVal.null)])] ∧
     (apiEnvelope "evt_1" "ping" [("foo", JVal.null)]).lookup "event_id" =
       some (JVal.str "evt_1") ∧
     (apiEnvelope "evt_1" "ping" [("foo", JVal.null)]).lookup "type" =
       some (JVal.str "ping")) :=
  ⟨rfl, rfl, c4_send_stamps_and_order "evt_1" "ping" [("foo", JVal.null)] rfl rfl⟩

/-- Claim C8 (code behavior): invoking the tool pipeline for a completed
function_call naming the unregistered tool "lookup" on a connected client
converts the failure into a `conversation.item.create` carrying a
function_call_output whose output is an object with an `error` field — but
the unconditional `create_response()` that follows evaluates
`get_turn_detection_type()`, which under the default session configuration
(`turn_detection` present with value `None`) calls `.get` on `None` and
raises AttributeError, so under the default configuration the pipeline
crashes and no `response.create` envelope is issued.  With turn detection
configured (second and third conjuncts) the claimed behavior does hold,
for an unregistered tool and for an argument parse failure. -/
theorem c8_tool_failure_pipeline :
    callTool parseOkStub [] csDefaultExample unregisteredTool =
      Except.error "AttributeError: NoneType object has no attribute get" ∧
    callTool parseOkStub [] csVadExample unregisteredTool =
      Except.ok { csVadExample with trace :=
        [Env.itemCreateFCOutput "call_1"
          (JVal.obj [("error", JVal.str "Tool has not been added: lookup")]),
         Env.responseCreate] } ∧
    callTool parseReject [] csVadExample unregisteredTool =
      Except.ok { csVadExample with trace :=
        [Env.itemCreateFCOutput "call_1"
          (JVal.obj [("error", JVal.str "invalid JSON")]),
         Env.responseCreate] } :=
  ⟨rfl, rfl, rfl⟩

/-- Claim C9, counterexample: removing the registered tool "lookup" from a
connected client succeeds yet transmits nothing — no session-update resync
follows a remove_tool registry change. -/
theorem c9_counterexample_remove_no_resync :
    traceOf (removeTool cs9Example "lookup") = Except.ok [] := rfl

/-- Claim C9 as amended: `remove_tool(name)` fails when the name is not in
the registry and otherwise only deletes the entry, transmitting nothing;
`add_tool`, while connected, triggers a resync transmitting a
session-update envelope whose tool list reflects the updated registry. -/
theorem c9_tool_registry (cs : ClientState) (nm : String) (d : ToolDef) :
    (cs.tools.lookup nm = none →
      removeTool cs nm =
        Except.error "Tool does not exist, can not be removed") ∧
    ((cs.tools.lookup nm).isSome →
      removeTool cs nm =
        Except.ok { cs with tools := eraseKey cs.tools nm }) ∧
    (cs.connected = true → d.name ≠ "" → cs.tools.lookup d.name = none →
      addTool cs d = Except.ok
        { cs with
            tools := cs.tools ++ [(d.name, d)],
            trace := cs.trace ++ [Env.sessionUpdate
              { cs.sessionConfig with
                  tools := (cs.tools ++ [(d.name, d)]).map
                    (fun p => sentToolOf p.2) }] }) := by
  refine ⟨?_, ?_, ?_⟩
  · intro h; simp [removeTool, h]
  · intro h; simp [removeTool, h]
  · intro hc hn hd
    simp [addTool, hn, hd, updateSession, hc]

/-- Witness for `c9_tool_registry` at concrete clients. -/
theorem c9_tool_registry_witness :
    (cs9Example.tools.lookup "other" = none ∧
      removeTool cs9Example "other" =
        Except.error "Tool does not exist, can not be removed") ∧
    ((cs9Example.tools.lookup "lookup").isSome ∧
      removeTool cs9Example "lookup" =
        Except.ok { cs9Example with tools := eraseKey cs9Example.tools "lookup" }) ∧
    (csDefaultExample.connected = true ∧ lookupToolDef.name ≠ "" ∧
      csDefaultExample.tools.lookup "lookup" = none ∧
      addTool csDefaultExample lookupToolDef = Except.ok
        { csDefaultExample with
            tools := csDefaultExample.tools ++ [("lookup", lookupToolDef)],
            trace := csDefaultExample.trace ++ [Env.sessionUpdate
              { csDefaultExample.sessionConfig with
                  tools := (csDefaultExample.tools ++
                    [("lookup", lookupToolDef)]).map
                    (fun p => sentToolOf p.2) }] }) :=
  ⟨⟨rfl, (c9_tool_registry cs9Example "other" lookupToolDef).1 rfl⟩,
   ⟨rfl, (c9_tool_registry cs9Example "lookup" lookupToolDef).2.1 rfl⟩,
   ⟨rfl, by decide, rfl,
    (c9_tool_registry csDefaultExample "z" lookupToolDef).2.2 rfl
      (by decide) rfl⟩⟩

/-- Step characterization of `response_text_delta` on a tracked item with a
content list and a formatted projection. -/
theorem responseTextDelta_present (s : ConvState) (id : String) (ci : Nat)
    (d : String) (it : Item) (l : List ContentPart) (fm : Formatted)
    (hit : s.item_lookup.lookup id = some it)
    (hc : it.content = some l) (hf : it.formatted = some fm) :
    responseTextDelta s id ci d =
      Except.ok (setItem s id
        { it with
            content := some (updateAt l ci
              (fun p => { p with text := some (p.text.getD "" ++ d) })),
            formatted := some { fm with text := fm.text ++ d } },
        some { it with
            content := some (updateAt l ci
              (fun p => { p with text := some (p.text.getD "" ++ d) })),
            formatted := some { fm with text := fm.text ++ d } },
        some { text := some d }) := by
  unfold responseTextDelta withEnsured ensureItem
  rw [hit]
  simp [hc, hf]

/-- Step characterization of `response_audio_transcript_delta`. -/
theorem responseAudioTranscriptDelta_present (s : ConvState) (id : String)
    (ci : Nat) (d : String) (it : Item) (l : List ContentPart)
    (fm : Formatted)
    (hit : s.item_lookup.lookup id = some it)
    (hc : it.content = some l) (hf : it.formatted = some fm) :
    responseAudioTranscriptDelta s id ci d =
      Except.ok (setItem s id
        { it with
            content := some (updateAt l ci
              (fun p => { p with transcript := some (p.transcript.getD "" ++ d) })),
            formatted := some { fm with transcript := fm.transcript ++ d } },
        some { it with
            content := some (updateAt l ci
              (fun p => { p with transcript := some (p.transcript.getD "" ++ d) })),
            formatted := some { fm with transcript := fm.transcript ++ d } },
        some { transcript := some d }) := by
  unfold responseAudioTranscriptDelta withEnsured ensureItem
  rw [hit]
  simp [hc, hf]

/-- Step characterization of `response_audio_delta`. -/
theorem responseAudioDelta_present (decode : String → Bytes) (s : ConvState)
    (id : String) (ci : Nat) (d : String) (it : Item)
    (l : List ContentPart) (fm : Formatted)
    (hit : s.item_lookup.lookup id = some it)
    (hc : it.content = some l) (hf : it.formatted = some fm) :
    responseAudioDelta decode s id ci d =
      Except.ok (setItem s id
        { it with
            content := some (updateAt l ci
              (fun p => { p with audio := some (p.audio.getD "" ++ d) })),
            formatted := some { fm with audio := fm.audio ++ decode d } },
        some { it with
            content := some (updateAt l ci
              (fun p => { p with audio := some (p.audio.getD "" ++ d) })),
            formatted := some { fm with audio := fm.audio ++ decode d } },
        some { audio := some (decode d) }) := by
  unfold responseAudioDelta withEnsured ensureItem
  rw [hit]
  simp [hc, hf]

/-- Claim C5: every indexed delta processor (text, audio transcript, audio),
run on a tracked item, pads the content list to exactly
`max (previous length) (index + 1)`, back-fills the missing indices below
the target with empty placeholders, leaves every other existing index
unchanged, and returns only the incoming fragment as its delta. -/
theorem c5_indexed_delta_padding (decode : String → Bytes) (s : ConvState)
    (id : String) (ci : Nat) (d : String) (it : Item)
    (l : List ContentPart) (fm : Formatted)
    (hit : s.item_lookup.lookup id = some it)
    (hc : it.content = some l) (hf : it.formatted = some fm) :
    deltaPadPost (responseTextDelta s id ci d) id ci { text := some d } l ∧
    deltaPadPost (responseAudioTranscriptDelta s id ci d) id ci
      { transcript := some d } l ∧
    deltaPadPost (responseAudioDelta decode s id ci d) id ci
      { audio := some (decode d) } l := by
  refine ⟨?_, ?_, ?_⟩
  · refine ⟨_, _, _, responseTextDelta_present s id ci d it l fm hit hc hf,
      lookup_assign_self _ _ _, rfl, updateAt_length _ _ _, ?_, ?_⟩
    · intro j hj hne; exact updateAt_get_old _ _ _ _ hj hne
    · intro j hj hlt; exact updateAt_get_pad _ _ _ _ hj hlt
  · refine ⟨_, _, _,
      responseAudioTranscriptDelta_present s id ci d it l fm hit hc hf,
      lookup_assign_self _ _ _, rfl, updateAt_length _ _ _, ?_, ?_⟩
    · intro j hj hne; exact updateAt_get_old _ _ _ _ hj hne
    · intro j hj hlt; exact updateAt_get_pad _ _ _ _ hj hlt
  · refine ⟨_, _, _,
      responseAudioDelta_present decode s id ci d it l fm hit hc hf,
      lookup_assign_self _ _ _, rfl, updateAt_length _ _ _, ?_, ?_⟩
    · intro j hj hne; exact updateAt_get_old _ _ _ _ hj hne
    · intro j hj hlt; exact updateAt_get_pad _ _ _ _ hj hlt

/-- Witness for `c5_indexed_delta_padding` on a one-part item targeting
index 2. -/
theorem c5_indexed_delta_padding_witness :
    witnessConv.item_lookup.lookup "w1" = some witnessItem ∧
    witnessItem.content = some [{ ctype := some "text", text := some "t" }] ∧
    witnessItem.formatted = some {} ∧
    (deltaPadPost (responseTextDelta witnessConv "w1" 2 "d") "w1" 2
      { text := some "d" } [{ ctype := some "text", text := some "t" }] ∧
     deltaPadPost (responseAudioTranscriptDelta witnessConv "w1" 2 "d") "w1" 2
      { transcript := some "d" } [{ ctype := some "text", text := some "t" }] ∧
     deltaPadPost (responseAudioDelta decode0 witnessConv "w1" 2 "d") "w1" 2
      { audio := some (decode0 "d") } [{ ctype := some "text", text := some "t" }]) :=
  ⟨rfl, rfl, rfl,
   c5_indexed_delta_padding decode0 witnessConv "w1" 2 "d" witnessItem
     [{ ctype := some "text", text := some "t" }] {} rfl rfl rfl⟩

/-- Claim C7: processing a `conversation.item.created` event whose item id
is already tracked leaves both the ordered item list and the item lookup
exactly unchanged — no duplicate entry for the id appears, and the tracked
item record (hence its formatted audio, text and transcript) is not
re-initialized; the processor only mutates a detached copy. -/
theorem c7_item_created_replay (decode : String → Bytes) (buf : Bytes)
    (s : ConvState) (item0 : Item) (it : Item) (s' : ConvState)
    (oi : Option Item) (od : Option Delta)
    (hpres : s.item_lookup.lookup item0.id = some it)
    (hok : processREvent decode (REvent.itemCreated item0) buf s =
      Except.ok (s', oi, od)) :
    s'.items = s.items ∧ s'.item_lookup = s.item_lookup ∧
    s'.item_lookup.lookup item0.id = some it := by
  simp only [processREvent] at hok
  unfold conversationItemCreated at hok
  rw [hpres] at hok
  simp only [Option.isSome_some, if_true] at hok
  repeat' split at hok
  all_goals
    first
    | exact Except.noConfusion hok
    | (simp only [Except.ok.injEq, Prod.mk.injEq] at hok
       obtain ⟨h1, h2, h3⟩ := hok
       subst h1
       exact ⟨rfl, rfl, hpres⟩)

/-- Witness for `c7_item_created_replay`: replaying a created event for the
already-tracked id "w1" leaves the store untouched. -/
theorem c7_item_created_replay_witness :
    witnessConv.item_lookup.lookup "w1" = some witnessItem ∧
    processREvent decode0
      (REvent.itemCreated
        { id := "w1", itype := some "message", role := some "user",
          content := some [] }) [] witnessConv =
      Except.ok (witnessConv,
        some { id := "w1", itype := some "message", role := some "user",
               content := some [], status := some "completed",
               formatted := some {} }, none) ∧
    (witnessConv.items = witnessConv.items ∧
     witnessConv.item_lookup = witnessConv.item_lookup ∧
     witnessConv.item_lookup.lookup "w1" = some witnessItem) :=
  ⟨rfl, rfl,
   c7_item_created_replay decode0 []
     witnessConv
     { id := "w1", itype := some "message", role := some "user",
       content := some [] }
     witnessItem witnessConv
     (some { id := "w1", itype := some "message", role := some "user",
             content := some [], status := some "completed",
             formatted := some {} })
     none rfl rfl⟩

/-- Accumulator lemma for sequences of text deltas: starting from a tracked
item with a content list and formatted projection, the run succeeds, the
returned deltas are exactly the fragments, and the final formatted text is
the initial text followed by the fragments in arrival order. -/
theorem runTextDeltas_acc (id : String) (evs : List (Nat × String)) :
    ∀ (s : ConvState) (it : Item) (l : List ContentPart) (fm : Formatted),
      s.item_lookup.lookup id = some it → it.content = some l →
      it.formatted = some fm →
      ∃ s2 ds, runTextDeltas id s evs = Except.ok (s2, ds) ∧
        ds = evs.map (fun e => ({ text := some e.2 } : Delta)) ∧
        formattedTextOf s2 id =
          some (fm.text ++ strConcat (evs.map Prod.snd)) := by
  induction evs with
  | nil =>
    intro s it l fm hit hc hf
    refine ⟨s, [], rfl, rfl, ?_⟩
    unfold formattedTextOf
    rw [hit]
    simp [hf, strConcat, String.append_empty]
  | cons e rest ih =>
    intro s it l fm hit hc hf
    obtain ⟨ci, d⟩ := e
    have hstep := responseTextDelta_present s id ci d it l fm hit hc hf
    obtain ⟨s2, ds, hrun, hds, htext⟩ := ih (setItem s id
        { it with
            content := some (updateAt l ci
              (fun p => { p with text := some (p.text.getD "" ++ d) })),
            formatted := some { fm with text := fm.text ++ d } })
      { it with
          content := some (updateAt l ci
            (fun p => { p with text := some (p.text.getD "" ++ d) })),
          formatted := some { fm with text := fm.text ++ d } }
      (updateAt l ci (fun p => { p with text := some (p.text.getD "" ++ d) }))
      { fm with text := fm.text ++ d }
      (lookup_assign_self _ _ _) rfl rfl
    refine ⟨s2, { text := some d } :: ds, ?_, ?_, ?_⟩
    · simp only [runTextDeltas, hstep, hrun]
    · rw [hds]; rfl
    · rw [htext]
      simp [strConcat, String.append_assoc]

/-- Single-step characterization of the arguments-delta processor on a
tracked item: both accumulated argument views grow by the fragment. -/
theorem argumentsDelta_present (s : ConvState) (id : String) (d : String)
    (it : Item) (hit : s.item_lookup.lookup id = some it) :
    responseFunctionCallArgumentsDelta s id d =
      Except.ok (setItem s id
        { it with
            arguments := some (argsView it ++ d),
            formatted := some
              { it.formatted.getD {} with
                  tool := some
                    { (it.formatted.getD {}).tool.getD { arguments := "" } with
                        arguments := toolArgsView it ++ d } } },
        some { it with
            arguments := some (argsView it ++ d),
            formatted := some
              { it.formatted.getD {} with
                  tool := some
                    { (it.formatted.getD {}).tool.getD { arguments := "" } with
                        arguments := toolArgsView it ++ d } } },
        some { arguments := some d }) := by
  unfold responseFunctionCallArgumentsDelta withEnsured ensureItem
  rw [hit]
  rfl

/-- Accumulator lemma for sequences of arguments deltas. -/
theorem runArgDeltas_acc (id : String) (frags : List String) :
    ∀ (s : ConvState) (it : Item), s.item_lookup.lookup id = some it →
      ∃ s2 ds it2, runArgDeltas id s frags = Except.ok (s2, ds) ∧
        ds = frags.map (fun d => ({ arguments := some d } : Delta)) ∧
        s2.item_lookup.lookup id = some it2 ∧
        toolArgsView it2 = toolArgsView it ++ strConcat frags ∧
        argsView it2 = argsView it ++ strConcat frags := by
  induction frags with
  | nil =>
    intro s it hit
    exact ⟨s, [], it, rfl, rfl, hit, by simp [strConcat, String.append_empty],
      by simp [strConcat, String.append_empty]⟩
  | cons d rest ih =>
    intro s it hit
    have hstep := argumentsDelta_present s id d it hit
    obtain ⟨s2, ds, it2, hrun, hds, hit2, htool, hargs⟩ := ih (setItem s id
        { it with
            arguments := some (argsView it ++ d),
            formatted := some
              { it.formatted.getD {} with
                  tool := some
                    { (it.formatted.getD {}).tool.getD { arguments := "" } with
                        arguments := toolArgsView it ++ d } } })
      { it with
          arguments := some (argsView it ++ d),
          formatted := some
            { it.formatted.getD {} with
                tool := some
                  { (it.formatted.getD {}).tool.getD { arguments := "" } with
                      arguments := toolArgsView it ++ d } } }
      (lookup_assign_self _ _ _)
    refine ⟨s2, { arguments := some d } :: ds, it2, ?_, ?_, hit2, ?_, ?_⟩
    · simp only [runArgDeltas, hstep, hrun]
    · rw [hds]; rfl
    · rw [htool]
      simp [toolArgsView, strConcat, String.append_assoc]
    · rw [hargs]
      simp [argsView, strConcat, String.append_assoc]

/-- Claim C6: over any sequence of delta events targeting the same item and
field, the final formatted field value is the initial value followed by the
concatenation of all fragments in arrival order (so, from an empty start,
exactly their ordered concatenation), and every step returns a delta
carrying only that step's incoming fragment — shown for text deltas
(arbitrary content indices) and for function-call-argument deltas. -/
theorem c6_delta_concatenation (s : ConvState) (id : String) (it : Item)
    (l : List ContentPart) (fm : Formatted)
    (hit : s.item_lookup.lookup id = some it)
    (hc : it.content = some l) (hf : it.formatted = some fm)
    (evs : List (Nat × String)) (frags : List String) :
    (∃ s2 ds, runTextDeltas id s evs = Except.ok (s2, ds) ∧
      ds = evs.map (fun e => ({ text := some e.2 } : Delta)) ∧
      formattedTextOf s2 id =
        some (fm.text ++ strConcat (evs.map Prod.snd))) ∧
    (∃ s2 ds it2, runArgDeltas id s frags = Except.ok (s2, ds) ∧
      ds = frags.map (fun d => ({ arguments := some d } : Delta)) ∧
      s2.item_lookup.lookup id = some it2 ∧
      toolArgsView it2 = toolArgsView it ++ strConcat frags ∧
      argsView it2 = argsView it ++ strConcat frags) :=
  ⟨runTextDeltas_acc id evs s it l fm hit hc hf,
   runArgDeltas_acc id frags s it hit⟩

/-- Witness for `c6_delta_concatenation`: three text fragments and two
argument fragments accumulate in arrival order on the item "w1" (whose
formatted text and argument views start empty). -/
theorem c6_delta_concatenation_witness :
    witnessConv.item_lookup.lookup "w1" = some witnessItem ∧
    witnessItem.content = some [{ ctype := some "text", text := some "t" }] ∧
    witnessItem.formatted = some {} ∧
    ((∃ s2 ds, runTextDeltas "w1" witnessConv [(0, "A"), (0, "B"), (1, "C")] =
        Except.ok (s2, ds) ∧
      ds = [(0, "A"), (0, "B"), (1, "C")].map
        (fun e => ({ text := some e.2 } : Delta)) ∧
      formattedTextOf s2 "w1" =
        some (Formatted.text {} ++
          strConcat ([(0, "A"), (0, "B"), (1, "C")].map Prod.snd))) ∧
     (∃ s2 ds it2, runArgDeltas "w1" witnessConv ["x", "y"] =
        Except.ok (s2, ds) ∧
      ds = ["x", "y"].map (fun d => ({ arguments := some d } : Delta)) ∧
      s2.item_lookup.lookup "w1" = some it2 ∧
      toolArgsView it2 = toolArgsView witnessItem ++ strConcat ["x", "y"] ∧
      argsView it2 = argsView witnessItem ++ strConcat ["x", "y"])) :=
  ⟨rfl, rfl, rfl,
   c6_delta_concatenation witnessConv "w1" witnessItem
     [{ ctype := some "text", text := some "t" }] {} rfl rfl rfl
     [(0, "A"), (0, "B"), (1, "C")] ["x", "y"]⟩

/-- Keys of a dict are exactly the successfully looked-up ids. -/
theorem mem_dictKeys_iff {β : Type} (l : List (String × β)) (k : String) :
    k ∈ dictKeys l ↔ (l.lookup k).isSome := by
  induction l with
  | nil => simp [dictKeys]
  | cons p t ih =>
    obtain ⟨a, b⟩ := p
    by_cases h : k = a
    · subst h; simp [dictKeys, lookup_cons]
    · simp [dictKeys, lookup_cons, h, ih]

/-- A successful lookup corresponds to an actual entry of the dict. -/
theorem lookup_mem {β : Type} (l : List (String × β)) (k : String) (v : β)
    (h : l.lookup k = some v) : (k, v) ∈ l := by
  induction l with
  | nil => simp [List.lookup] at h
  | cons p t ih =>
    obtain ⟨a, b⟩ := p
    rw [lookup_cons] at h
    by_cases hk : k = a
    · rw [if_pos hk] at h
      injection h with h
      subst hk; subst h
      exact List.mem_cons_self _ _
    · rw [if_neg hk] at h
      exact List.mem_cons_of_mem _ (ih h)

/-- In-place assignment of a present key keeps the key list. -/
theorem dictKeys_assign_present {β : Type} (l : List (String × β))
    (k : String) (v : β) (hs : (l.lookup k).isSome) :
    dictKeys (assign l k v) = dictKeys l := by
  unfold assign
  rw [if_pos hs]
  unfold dictKeys
  rw [List.map_map]
  apply List.map_congr_left
  intro p _
  by_cases hp : p.1 = k
  · simp [hp]
  · simp [hp]

/-- Every entry of an in-place assignment is the new entry or an old one. -/
theorem mem_assign_present {β : Type} (l : List (String × β)) (k : String)
    (v : β) (hs : (l.lookup k).isSome) (q : String × β)
    (hq : q ∈ assign l k v) : q = (k, v) ∨ q ∈ l := by
  unfold assign at hq
  rw [if_pos hs] at hq
  obtain ⟨p, hp, hpq⟩ := List.mem_map.mp hq
  by_cases hk : p.1 = k
  · rw [if_pos hk] at hpq; exact Or.inl hpq.symm
  · rw [if_neg hk] at hpq; exact Or.inr (hpq ▸ hp)

/-- Unfolding of `eraseKey` on a cons cell. -/
theorem eraseKey_cons {β : Type} (a : String) (b : β) (t : List (String × β))
    (k : String) :
    eraseKey ((a, b) :: t) k =
      if a = k then eraseKey t k else (a, b) :: eraseKey t k := by
  by_cases h : a = k <;> simp [eraseKey, h]

/-- Deleting one key leaves lookups of other keys unchanged. -/
theorem lookup_eraseKey_ne {β : Type} (l : List (String × β)) (k k' : String)
    (h : k' ≠ k) : ((eraseKey l k).lookup k') = l.lookup k' := by
  induction l with
  | nil => rfl
  | cons p t ih =>
    obtain ⟨a, b⟩ := p
    rw [eraseKey_cons]
    by_cases hk : a = k
    · rw [if_pos hk, ih, lookup_cons, if_neg (fun hh => h (hh.trans hk))]
    · rw [if_neg hk, lookup_cons, lookup_cons]
      by_cases hka : k' = a
      · rw [if_pos hka, if_pos hka]
      · rw [if_neg hka, if_neg hka, ih]

/-- Writing an item back under a key it already occupies, with the id it is
keyed by, preserves store consistency. -/
theorem consistent_setItem (s : ConvState) (k : String) (v : Item)
    (hcons : consistent s) (hs : (s.item_lookup.lookup k).isSome)
    (hid : v.id = k) : consistent (setItem s k v) := by
  obtain ⟨h1, h2, h3, h4, h5⟩ := hcons
  refine ⟨?_, ?_, h3, ?_, ?_⟩
  · intro id hm
    by_cases hk : id = k
    · rw [hk, show (setItem s k v).item_lookup = assign s.item_lookup k v from rfl,
        lookup_assign_self]
      rfl
    · rw [show (setItem s k v).item_lookup = assign s.item_lookup k v from rfl,
        lookup_assign_ne _ _ _ _ hk]
      exact h1 id hm
  · intro p hp
    rcases mem_assign_present _ _ _ hs p hp with h | h
    · subst h
      have hkmem : k ∈ dictKeys s.item_lookup := (mem_dictKeys_iff _ _).mpr hs
      obtain ⟨q, hq, hqk⟩ := List.mem_map.mp hkmem
      exact hqk ▸ h2 q hq
    · exact h2 p h
  · rw [show dictKeys (setItem s k v).item_lookup =
        dictKeys (assign s.item_lookup k v) from rfl,
      dictKeys_assign_present _ _ _ hs]
    exact h4
  · intro p hp
    rcases mem_assign_present _ _ _ hs p hp with h | h
    · subst h; exact hid
    · exact h5 p h

/-- Inserting a brand-new item (its id not yet a key) into the lookup and
appending it to the ordered list preserves store consistency. -/
theorem consistent_addItem (s : ConvState) (v : Item)
    (hcons : consistent s) (hn : s.item_lookup.lookup v.id = none) :
    consistent (addItem s v) := by
  obtain ⟨h1, h2, h3, h4, h5⟩ := hcons
  have hnotmem : v.id ∉ s.items := fun hm => by
    have := h1 _ hm; rw [hn] at this; simp at this
  have hnotkey : v.id ∉ dictKeys s.item_lookup := fun hm => by
    have := (mem_dictKeys_iff _ _).mp hm; rw [hn] at this; simp at this
  have hassign : assign s.item_lookup v.id v = s.item_lookup ++ [(v.id, v)] := by
    unfold assign; rw [if_neg (by rw [hn]; simp)]
  refine ⟨?_, ?_, ?_, ?_, ?_⟩
  · intro id hm
    rw [show (addItem s v).item_lookup = assign s.item_lookup v.id v from rfl,
      hassign]
    rcases List.mem_append.mp hm with h | h
    · rw [lookup_append_left _ _ _ (h1 id h)]
      exact h1 id h
    · have : id = v.id := by simpa using h
      subst this
      rw [lookup_append_right _ _ _ hn, lookup_cons, if_pos rfl]
      rfl
  · intro p hp
    rw [show (addItem s v).item_lookup = assign s.item_lookup v.id v from rfl,
      hassign] at hp
    rcases List.mem_append.mp hp with h | h
    · exact List.mem_append_left _ (h2 p h)
    · have : p = (v.id, v) := by simpa using h
      subst this
      exact List.mem_append_right _ (by simp)
  · rw [show (addItem s v).items = s.items ++ [v.id] from rfl,
      List.nodup_append]
    exact ⟨h3, List.nodup_singleton _, by simpa using hnotmem⟩
  · rw [show dictKeys (addItem s v).item_lookup =
        dictKeys (assign s.item_lookup v.id v) from rfl, hassign]
    unfold dictKeys
    rw [List.map_append, List.nodup_append]
    exact ⟨h4, by simp, by simpa [dictKeys] using hnotkey⟩
  · intro p hp
    rw [show (addItem s v).item_lookup = assign s.item_lookup v.id v from rfl,
      hassign] at hp
    rcases List.mem_append.mp hp with h | h
    · exact h5 p h
    · have : p = (v.id, v) := by simpa using h
      subst this
      rfl

/-- Removing an id from both the lookup and the ordered list preserves
store consistency. -/
theorem consistent_delete (s : ConvState) (k : String)
    (hcons : consistent s) :
    consistent
      { s with
          item_lookup := eraseKey s.item_lookup k,
          items := s.items.filter (fun i => i ≠ k) } := by
  obtain ⟨h1, h2, h3, h4, h5⟩ := hcons
  refine ⟨?_, ?_, List.Nodup.filter _ h3, ?_, ?_⟩
  · intro id hm
    have hm2 := List.mem_filter.mp hm
    have hne : id ≠ k := by simpa using hm2.2
    rw [show ({ s with
          item_lookup := eraseKey s.item_lookup k,
          items := s.items.filter (fun i => i ≠ k) } : ConvState).item_lookup =
        eraseKey s.item_lookup k from rfl,
      lookup_eraseKey_ne _ _ _ hne]
    exact h1 id hm2.1
  · intro p hp
    have hp2 := List.mem_filter.mp hp
    have hpk : p.1 ≠ k := by simpa using hp2.2
    exact List.mem_filter.mpr ⟨h2 p hp2.1, by simpa using hpk⟩
  · exact List.Nodup.sublist (List.Sublist.map _ (List.filter_sublist _)) h4
  · intro p hp
    exact h5 p (List.mem_filter.mp hp).1

/-- Consistency gives that a looked-up item carries the id it is keyed
under. -/
theorem consistent_lookup_id (s : ConvState) (k : String) (it : Item)
    (hcons : consistent s) (h : s.item_lookup.lookup k = some it) :
    it.id = k :=
  hcons.2.2.2.2 (k, it) (lookup_mem _ _ _ h)

/-- `withEnsured` preserves store consistency whenever the in-place mutation
keeps the item keyed under the ensured id. -/
theorem consistent_withEnsured (s : ConvState) (id : String)
    (f : Item → Except String (Item × Option Delta))
    (hpres : ∀ it it2 d, f it = Except.ok (it2, d) → it.id = id →
      it2.id = id)
    (hcons : consistent s) :
    ∀ s' oi od, withEnsured s id f = Except.ok (s', oi, od) →
      consistent s' := by
  intro s' oi od h
  unfold withEnsured ensureItem at h
  cases hens : s.item_lookup.lookup id with
  | some it =>
    rw [hens] at h
    have h2 : (match f it with
      | Except.error e => Except.error e
      | Except.ok (it2, d) =>
        Except.ok (setItem s id it2, some it2, d)) =
        Except.ok (s', oi, od) := h
    cases hf : f it with
    | error e =>
      rw [hf] at h2
      exact Except.noConfusion h2
    | ok r =>
      obtain ⟨it2, d⟩ := r
      rw [hf] at h2
      have h3 : (Except.ok (setItem s id it2, some it2, d) :
          Except String (ConvState × Option Item × Option Delta)) =
          Except.ok (s', oi, od) := h2
      simp only [Except.ok.injEq, Prod.mk.injEq] at h3
      obtain ⟨h1, _, _⟩ := h3
      subst h1
      exact consistent_setItem s id it2 hcons (by rw [hens]; rfl)
        (hpres it it2 d hf (consistent_lookup_id s id it hcons hens))
  | none =>
    rw [hens] at h
    have hcons1 : consistent (addItem s (placeholderItem id)) :=
      consistent_addItem s (placeholderItem id) hcons hens
    have h2 : (match f (placeholderItem id) with
      | Except.error e => Except.error e
      | Except.ok (it2, d) =>
        Except.ok (setItem (addItem s (placeholderItem id)) id it2,
          some it2, d)) = Except.ok (s', oi, od) := h
    cases hf : f (placeholderItem id) with
    | error e =>
      rw [hf] at h2
      exact Except.noConfusion h2
    | ok r =>
      obtain ⟨it2, d⟩ := r
      rw [hf] at h2
      have h3 : (Except.ok
          (setItem (addItem s (placeholderItem id)) id it2, some it2, d) :
          Except String (ConvState × Option Item × Option Delta)) =
          Except.ok (s', oi, od) := h2
      simp only [Except.ok.injEq, Prod.mk.injEq] at h3
      obtain ⟨h1, _, _⟩ := h3
      subst h1
      exact consistent_setItem _ id it2 hcons1
        (by rw [show (addItem s (placeholderItem id)).item_lookup =
              assign s.item_lookup id (placeholderItem id) from rfl,
            lookup_assign_self]; rfl)
        (hpres _ it2 d hf rfl)

set_option maxHeartbeats 2000000 in
/-- `conversation_item_created` preserves store consistency. -/
theorem consistent_itemCreated (s : ConvState) (item0 : Item)
    (hcons : consistent s) :
    ∀ s' oi od, conversationItemCreated s item0 = Except.ok (s', oi, od) →
      consistent s' := by
  intro s' oi od h
  unfold conversationItemCreated at h
  repeat' split at h
  all_goals first
    | exact Except.noConfusion h
    | (simp only [Except.ok.injEq, Prod.mk.injEq] at h
       obtain ⟨h1, _, _⟩ := h
       subst h1
       first
         | exact hcons
         | (refine consistent_addItem _ _ hcons
              (lookup_isNone_of_not_isSome _ _ ?_)
            assumption))

set_option maxHeartbeats 2000000 in
/-- Claim C10: after `clear()` and after every successful `process_event`
call, the ordered item list and the item lookup agree — every listed id is
a key of the lookup and vice versa, no id occurs twice on either side, and
the lookup keys each item under its own id (so lookup and list refer to the
same records); every event processor preserves this consistency. -/
theorem c10_store_consistency :
    consistent clearConvState ∧
    ∀ (decode : String → Bytes) (env : EventEnvelope) (buf : Bytes)
      (s s' : ConvState) (oi : Option Item) (od : Option Delta),
      consistent s → processEvent decode env buf s = Except.ok (s', oi, od) →
      consistent s' := by
  constructor
  · decide
  · intro decode env buf s s' oi od hcons h
    unfold processEvent at h
    cases henv : env.event_id with
    | none => rw [henv] at h; exact Except.noConfusion h
    | some eid =>
      rw [henv] at h
      cases hpl : env.payload with
      | none => rw [hpl] at h; exact Except.noConfusion h
      | some ev =>
        rw [hpl] at h
        cases ev with
        | itemCreated item0 =>
          exact consistent_itemCreated s item0 hcons s' oi od h
        | itemTruncated item_id ms =>
          simp only [processREvent] at h
          unfold conversationItemTruncated at h
          refine consistent_withEnsured s item_id _ ?_ hcons s' oi od h
          intro it it2 d hf hii
          simp only [] at hf
          repeat' split at hf
          all_goals first
            | exact Except.noConfusion hf
            | (simp only [Except.ok.injEq, Prod.mk.injEq] at hf
               obtain ⟨h1, _⟩ := hf
               subst h1
               first | exact hii | rfl)
        | itemDeleted item_id =>
          simp only [processREvent] at h
          unfold conversationItemDeleted at h
          repeat' split at h
          all_goals first
            | exact Except.noConfusion h
            | (simp only [Except.ok.injEq, Prod.mk.injEq] at h
               obtain ⟨h1, _, _⟩ := h
               subst h1
               first | exact hcons | exact consistent_delete s _ hcons)
        | transcriptionCompleted item_id ci tr =>
          simp only [processREvent] at h
          unfold transcriptionCompleted at h
          refine consistent_withEnsured s item_id _ ?_ hcons s' oi od h
          intro it it2 d hf hii
          simp only [] at hf
          repeat' split at hf
          all_goals first
            | exact Except.noConfusion hf
            | (simp only [Except.ok.injEq, Prod.mk.injEq] at hf
               obtain ⟨h1, _⟩ := hf
               subst h1
               first | exact hii | rfl)
        | speechStarted item_id ms =>
          simp only [processREvent] at h
          unfold speechStarted at h
          simp only [Except.ok.injEq, Prod.mk.injEq] at h
          obtain ⟨h1, _, _⟩ := h
          subst h1
          exact hcons
        | speechStopped item_id ms =>
          simp only [processREvent] at h
          unfold speechStopped at h
          simp only [Except.ok.injEq, Prod.mk.injEq] at h
          obtain ⟨h1, _, _⟩ := h
          subst h1
          exact hcons
        | responseCreated resp =>
          simp only [processREvent] at h
          unfold responseCreatedProc at h
          repeat' split at h
          all_goals first
            | exact Except.noConfusion h
            | (simp only [Except.ok.injEq, Prod.mk.injEq] at h
               obtain ⟨h1, _, _⟩ := h
               subst h1
               exact hcons)
        | outputItemAdded rid item =>
          simp only [processREvent] at h
          unfold responseOutputItemAdded at h
          repeat' split at h
          all_goals first
            | exact Except.noConfusion h
            | (simp only [Except.ok.injEq, Prod.mk.injEq] at h
               obtain ⟨h1, _, _⟩ := h
               subst h1
               exact hcons)
        | outputItemDone item =>
          simp only [processREvent] at h
          unfold responseOutputItemDone at h
          refine consistent_withEnsured s item.id _ ?_ hcons s' oi od h
          intro it it2 d hf hii
          simp only [] at hf
          repeat' split at hf
          all_goals first
            | exact Except.noConfusion hf
            | (simp only [Except.ok.injEq, Prod.mk.injEq] at hf
               obtain ⟨h1, _⟩ := hf
               subst h1
               first | exact hii | rfl)
        | contentPartAdded item_id part =>
          simp only [processREvent] at h
          unfold responseContentPartAdded at h
          refine consistent_withEnsured s item_id _ ?_ hcons s' oi od h
          intro it it2 d hf hii
          simp only [] at hf
          repeat' split at hf
          all_goals first
            | exact Except.noConfusion hf
            | (simp only [Except.ok.injEq, Prod.mk.injEq] at hf
               obtain ⟨h1, _⟩ := hf
               subst h1
               first | exact hii | rfl)
        | audioTranscriptDelta item_id ci d =>
          simp only [processREvent] at h
          unfold responseAudioTranscriptDelta at h
          refine consistent_withEnsured s item_id _ ?_ hcons s' oi od h
          intro it it2 dd hf hii
          simp only [] at hf
          repeat' split at hf
          all_goals first
            | exact Except.noConfusion hf
            | (simp only [Except.ok.injEq, Prod.mk.injEq] at hf
               obtain ⟨h1, _⟩ := hf
               subst h1
               first | exact hii | rfl)
        | audioDelta item_id ci d =>
          simp only [processREvent] at h
          unfold responseAudioDelta at h
          refine consistent_withEnsured s item_id _ ?_ hcons s' oi od h
          intro it it2 dd hf hii
          simp only [] at hf
          repeat' split at hf
          all_goals first
            | exact Except.noConfusion hf
            | (simp only [Except.ok.injEq, Prod.mk.injEq] at hf
               obtain ⟨h1, _⟩ := hf
               subst h1
               first | exact hii | rfl)
        | textDelta item_id ci d =>
          simp only [processREvent] at h
          unfold responseTextDelta at h
          refine consistent_withEnsured s item_id _ ?_ hcons s' oi od h
          intro it it2 dd hf hii
          simp only [] at hf
          repeat' split at hf
          all_goals first
            | exact Except.noConfusion hf
            | (simp only [Except.ok.injEq, Prod.mk.injEq] at hf
               obtain ⟨h1, _⟩ := hf
               subst h1
               first | exact hii | rfl)
        | argumentsDelta item_id d =>
          simp only [processREvent] at h
          unfold responseFunctionCallArgumentsDelta at h
          refine consistent_withEnsured s item_id _ ?_ hcons s' oi od h
          intro it it2 dd hf hii
          simp only [] at hf
          repeat' split at hf
          all_goals first
            | exact Except.noConfusion hf
            | (simp only [Except.ok.injEq, Prod.mk.injEq] at hf
               obtain ⟨h1, _⟩ := hf
               subst h1
               first | exact hii | rfl)

/-- Witness for `c10_store_consistency`: processing a created event for a
fresh user item on the cleared state lands in a consistent store. -/
theorem c10_store_consistency_witness :
    consistent clearConvState ∧
    processEvent decode0
      { event_id := some "evt_1",
        payload := some (REvent.itemCreated a2UserItem) } [] clearConvState =
      Except.ok
        ({ item_lookup := [("a2",
            { id := "a2", itype := some "message", role := some "user",
              content := some [], status := some "completed",
              formatted := some {} })],
           items := ["a2"] },
         some { id := "a2", itype := some "message", role := some "user",
                content := some [], status := some "completed",
                formatted := some {} }, none) ∧
    consistent
      { item_lookup := [("a2",
          { id := "a2", itype := some "message", role := some "user",
            content := some [], status := some "completed",
            formatted := some {} })],
        items := ["a2"] } :=
  ⟨c10_store_consistency.1, rfl,
   c10_store_consistency.2 decode0
     { event_id := some "evt_1",
       payload := some (REvent.itemCreated a2UserItem) }
     [] clearConvState
     { item_lookup := [("a2",
         { id := "a2", itype := some "message", role := some "user",
           content := some [], status := some "completed",
           formatted := some {} })],
       items := ["a2"] }
     (some { id := "a2", itype := some "message", role := some "user",
             content := some [], status := some "completed",
             formatted := some {} })
     none (by decide) rfl⟩
